import Mathlib

/-!
Verification of the MERRA2 weather-processing pipeline
(src/data_processing.py) against its design specification.

The embedding models the three functions of the source file:

* compute_air_density (lines 9-22): list-valued arithmetic over ℝ models the
  numpy float arrays (the spec itself asks only for agreement with the closed
  formula up to floating-point rounding, so the exact-real idealisation is the
  intended semantics); a raised ValueError is modelled as Except.error.
* create_dataframe (lines 56-67): the pandas DataFrame is modelled as a
  structure of equally indexed columns; the double timestamp round-trip of
  lines 58 and 63 (strftime, then to_datetime, then strftime with the same
  second-resolution format) renders each timestamp once through the
  YYYY-MM-DD HH:MM:SS formatter, which never prints sub-second or timezone
  information, so the composition is a single application of that formatter.
* fetch_and_process_data (lines 24-54): the network, the netCDF decoder and
  the on-disk scratch directory are external collaborators, so one source is
  driven by an oracle value of type SourceRun recording where, if anywhere,
  the try-block of lines 35-50 raised:
    - fetchFail: requests.get, raise_for_status or the payload write raised,
      before the temporary file exists;
    - openFail: the file was written but Dataset(full_path) raised;
    - extractFail k rv: the file was written, the first k of the five
      list.extend statements of lines 42-48 completed (in the textual order
      u_50, v_50, T2M, PS, DateTimes; each extend is atomic because its list
      comprehension is evaluated before the extend), and the next one raised;
    - success rv: the whole block ran, including data.close() and
      os.remove(full_path).
  The scratch directory is a set of file names: writing is idempotent
  (open with mode wb overwrites) and os.remove deletes the name.
-/

open Classical

/-- A calendar timestamp as decoded by num2date, modelling a Python datetime
value with an explicit sub-second field. -/
structure PyDateTime where
  year : Nat
  month : Nat
  day : Nat
  hour : Nat
  minute : Nat
  second : Nat
  microsecond : Nat
deriving DecidableEq, Repr

/-- Two-digit zero-padded decimal rendering, as the strftime directives
%m %d %H %M %S produce for the field ranges a Python datetime admits. -/
def pad2 (n : Nat) : String :=
  ⟨[Nat.digitChar (n / 10 % 10), Nat.digitChar (n % 10)]⟩

/-- Four-digit zero-padded decimal rendering, as the strftime directive %Y
produces for the year range a Python datetime admits. -/
def pad4 (n : Nat) : String :=
  ⟨[Nat.digitChar (n / 1000 % 10), Nat.digitChar (n / 100 % 10),
    Nat.digitChar (n / 10 % 10), Nat.digitChar (n % 10)]⟩

/-- strftime with the fixed format string of lines 58 and 63 of the source:
YYYY-MM-DD HH:MM:SS. The format has no sub-second and no timezone directive. -/
def strftimeYmdHMS (dt : PyDateTime) : String :=
  pad4 dt.year ++ "-" ++ pad2 dt.month ++ "-" ++ pad2 dt.day ++ " " ++
  pad2 dt.hour ++ ":" ++ pad2 dt.minute ++ ":" ++ pad2 dt.second

/-- Line 16 of the source: R_const = 287.05. -/
noncomputable def R_const : ℝ := 287.05

/-- Line 17 of the source: Rw_const = 461.5. -/
noncomputable def Rw_const : ℝ := 461.5

/-- Pointwise body of the density computation, lines 18-21 of the source. -/
noncomputable def densityAt (T P RH : ℝ) : ℝ :=
  (1 / T) * (P / R_const -
    RH * (0.0000205 * Real.exp (0.0631846 * T)) * (1 / R_const - 1 / Rw_const))

/-- compute_air_density, lines 9-22 of the source. A missing humi_col
argument (Python default None) is the none case; line 11 then substitutes an
array of 0.5 of the shape of temp_col. Line 13 raises ValueError when any
element of temperature, pressure or the (possibly defaulted) humidity array
is negative; otherwise lines 18-22 return the pointwise formula. -/
noncomputable def compute_air_density (temp_col pres_col : List ℝ)
    (humi_col : Option (List ℝ)) : Except String (List ℝ) :=
  let rel_humidity := humi_col.getD (List.replicate temp_col.length 0.5)
  if (∃ x ∈ temp_col, x < 0) ∨ (∃ x ∈ pres_col, x < 0) ∨
      (∃ x ∈ rel_humidity, x < 0) then
    Except.error "Temperature, pressure, or humidity data contains negative values."
  else
    Except.ok (List.zipWith3 densityAt temp_col pres_col rel_humidity)

/-- Pointwise wind speed of line 62 of the source: sqrt(u^2 + v^2). -/
noncomputable def windSpeed (u v : ℝ) : ℝ := Real.sqrt (u ^ 2 + v ^ 2)

/-- The assembled table, modelled by its columns; all columns are index
aligned, row i of the table being the i-th entry of every column. -/
structure DataFrame where
  datetime : List String
  surface_pressure : List ℝ
  u_50 : List ℝ
  v_50 : List ℝ
  temp_2m : List ℝ
  dens_50m : List ℝ
  ws_50m : List ℝ

/-- Column order of the emitted table, read off the construction order of the
source: line 59 builds the frame with datetime, surface_pressure, u_50, v_50,
temp_2m, line 61 appends dens_50m, line 62 appends ws_50m, and to_csv with
index=False (line 65) writes exactly these columns in this order. -/
def dataframeColumns : List String :=
  ["datetime", "surface_pressure", "u_50", "v_50", "temp_2m", "dens_50m", "ws_50m"]

/-- Modelled from the spec wording of section 4.3: emit columns in the fixed
order datetime, surface_pressure, u_50, v_50, temp_2m, dens_50m, ws_50m. -/
def specColumnOrder : List String :=
  ["datetime", "surface_pressure", "u_50", "v_50", "temp_2m", "dens_50m", "ws_50m"]

/-- create_dataframe, lines 56-67 of the source. Density is computed on the
temp_2m and surface_pressure columns with humidity defaulted (line 61); a
ValueError raised there propagates out of create_dataframe, modelled by the
error branch. Wind speed is line 62, timestamp rendering lines 58 and 63. -/
noncomputable def create_dataframe (DateTimes : List PyDateTime)
    (u_50 v_50 T2M PS : List ℝ) : Except String DataFrame :=
  match compute_air_density T2M PS none with
  | Except.error e => Except.error e
  | Except.ok dens =>
      Except.ok
        { datetime := DateTimes.map strftimeYmdHMS
          surface_pressure := PS
          u_50 := u_50
          v_50 := v_50
          temp_2m := T2M
          dens_50m := dens
          ws_50m := List.zipWith windSpeed u_50 v_50 }

/-- The per-source extraction result: the four numeric series and the decoded
time axis of one decoded source (already reduced to the single spatial grid
cell val[0][0] per timestep, as lines 42-45 do). -/
structure RawVariableSet where
  u50m : List ℝ
  v50m : List ℝ
  t2m : List ℝ
  ps : List ℝ
  times : List PyDateTime

/-- The mutable state of the fetch loop: the five accumulators of line 29
plus the set of temporary artifacts currently present in the scratch
directory. -/
structure PipeState where
  u_50 : List ℝ
  v_50 : List ℝ
  T2M : List ℝ
  PS : List ℝ
  DateTimes : List PyDateTime
  tempFiles : List String

/-- Oracle describing how far the try-block of lines 35-50 ran for one
source; see the header comment for the exact mapping to the source lines. -/
inductive SourceRun where
  | fetchFail : SourceRun
  | openFail : SourceRun
  | extractFail : Fin 5 → RawVariableSet → SourceRun
  | success : RawVariableSet → SourceRun

/-- Writing a file: open(full_path, wb) creates or overwrites the name. -/
def writeFile (fs : List String) (f : String) : List String :=
  if f ∈ fs then fs else fs ++ [f]

/-- os.remove: the name disappears from the directory. -/
def removeFile (fs : List String) (f : String) : List String :=
  fs.filter (fun g => g ≠ f)

/-- Applying the first k of the five extend statements of lines 42-48, in
their textual order u_50, v_50, T2M, PS, DateTimes. -/
def extendUpTo (st : PipeState) (rv : RawVariableSet) (k : Nat) : PipeState :=
  { st with
    u_50 := if 1 ≤ k then st.u_50 ++ rv.u50m else st.u_50
    v_50 := if 2 ≤ k then st.v_50 ++ rv.v50m else st.v_50
    T2M := if 3 ≤ k then st.T2M ++ rv.t2m else st.T2M
    PS := if 4 ≤ k then st.PS ++ rv.ps else st.PS
    DateTimes := if 5 ≤ k then st.DateTimes ++ rv.times else st.DateTimes }

/-- Effect of one iteration of the loop of lines 31-52 on the pipeline state,
given the oracle outcome for this source. The except-branch of lines 51-52
only logs, so a failed source leaves exactly the state the try-block had
reached when it raised; os.remove (line 50) runs only on full success. -/
def processSource (st : PipeState) (f : String) (run : SourceRun) : PipeState :=
  match run with
  | SourceRun.fetchFail => st
  | SourceRun.openFail => { st with tempFiles := writeFile st.tempFiles f }
  | SourceRun.extractFail k rv =>
      { extendUpTo st rv k.val with tempFiles := writeFile st.tempFiles f }
  | SourceRun.success rv =>
      { extendUpTo st rv 5 with tempFiles := removeFile (writeFile st.tempFiles f) f }

/-- Python slicing s[a:b] on the character sequence of a string. -/
def pySlice (s : String) (a b : Nat) : String := ⟨(s.data.drop a).take (b - a)⟩

/-- Removing leading and trailing whitespace from a character list. -/
def stripChars (l : List Char) : List Char :=
  ((l.dropWhile Char.isWhitespace).reverse.dropWhile Char.isWhitespace).reverse

/-- Python str.strip(): whitespace removed from both ends. -/
def pyStrip (s : String) : String := ⟨stripChars s.data⟩

/-- Line 32 of the source: file_name = url[108:116].strip() + "-site.nc4". -/
def file_name (url : String) : String :=
  pyStrip (pySlice url 108 116) ++ "-site.nc4"

/-- Modelled from the spec wording of section 4.2 step 1: derive a short
identifier by taking a fixed character-offset substring of the URL (offset
108-116 in the URL string) and appending a fixed suffix. -/
def specSourceIdentifier (url : String) : String :=
  pySlice url 108 116 ++ "-site.nc4"

/-- Line 29 of the source: the five accumulators start empty, and the scratch
directory holds none of the temporary artifacts. -/
def initState : PipeState := ⟨[], [], [], [], [], []⟩

/-- The for-loop of lines 31-52: sources are processed strictly in list
order, each through processSource under its derived file name. -/
def processAll (st : PipeState) : List (String × SourceRun) → PipeState
  | [] => st
  | (url, r) :: rest => processAll (processSource st (file_name url) r) rest

/-- Lines 26-52 of fetch_and_process_data: readlines()[1:] discards the first
manifest line, and the remaining lines are processed in order, each paired
with its oracle outcome. -/
def runSources (manifest : List String) (runs : List SourceRun) : PipeState :=
  processAll initState ((manifest.drop 1).zip runs)

/-- fetch_and_process_data, lines 24-54: run all sources, then hand the five
accumulators to create_dataframe (line 54). -/
noncomputable def fetch_and_process_data (manifest : List String)
    (runs : List SourceRun) : Except String DataFrame :=
  let st := runSources manifest runs
  create_dataframe st.DateTimes st.u_50 st.v_50 st.T2M st.PS

/-- The accumulation invariant of the spec (section 3): all five accumulated
sequences share the same length. -/
def eqLens (st : PipeState) : Prop :=
  st.u_50.length = st.DateTimes.length ∧ st.v_50.length = st.DateTimes.length ∧
  st.T2M.length = st.DateTimes.length ∧ st.PS.length = st.DateTimes.length

/-- The per-source invariant of the spec (section 3): the four numeric
sequences and the timestamp sequence of one decoded source are index
aligned. -/
def alignedRV (rv : RawVariableSet) : Prop :=
  rv.u50m.length = rv.times.length ∧ rv.v50m.length = rv.times.length ∧
  rv.t2m.length = rv.times.length ∧ rv.ps.length = rv.times.length

/-- Whether an Except value is the error case, modelling that a Python call
raised. -/
def raisedError {α : Type} : Except String α → Bool
  | Except.error _ => true
  | Except.ok _ => false

/-- The humidity array the source actually validates and uses: the given one,
or the line 11 default of 0.5 everywhere in the shape of the temperature
array. -/
def defaultedHumidity (t : List ℝ) (h : Option (List ℝ)) : List ℝ :=
  h.getD (List.replicate t.length 0.5)

/-- Modelled from the spec wording of section 4.1: the closed density
formula with Rd = 287.05 and Rw = 461.5. -/
noncomputable def specDensityFormula (T P RH : ℝ) : ℝ :=
  (1 / T) * (P / 287.05 -
    RH * (2.05e-5 * Real.exp (0.0631846 * T)) * (1 / 287.05 - 1 / 461.5))

theorem densityAt_eq_spec (T P RH : ℝ) : densityAt T P RH = specDensityFormula T P RH := by
  unfold densityAt specDensityFormula R_const Rw_const
  norm_num

theorem zipWith3_eq_zipWith_zipWith {α β γ δ : Type} (f : α → β → γ → δ)
    (la : List α) (lb : List β) (lc : List γ) :
    List.zipWith3 f la lb lc =
      List.zipWith (fun g c => g c) (List.zipWith (fun a b => f a b) la lb) lc := by
  rw [List.zipWith_zipWith_left]

theorem length_zipWith3 {α β γ δ : Type} (f : α → β → γ → δ)
    (la : List α) (lb : List β) (lc : List γ) :
    (List.zipWith3 f la lb lc).length = min (min la.length lb.length) lc.length := by
  rw [zipWith3_eq_zipWith_zipWith]
  simp [List.length_zipWith]

theorem get_zipWith3 {α β γ δ : Type} (f : α → β → γ → δ) :
    ∀ (la : List α) (lb : List β) (lc : List γ) (i : Nat)
      (h : i < (List.zipWith3 f la lb lc).length) (ha : i < la.length)
      (hb : i < lb.length) (hc : i < lc.length),
      (List.zipWith3 f la lb lc).get ⟨i, h⟩ =
        f (la.get ⟨i, ha⟩) (lb.get ⟨i, hb⟩) (lc.get ⟨i, hc⟩)
  | _ :: _, _ :: _, _ :: _, 0, _, _, _, _ => rfl
  | _ :: la, _ :: lb, _ :: lc, Nat.succ i, h, ha, hb, hc =>
      get_zipWith3 f la lb lc i (Nat.lt_of_succ_lt_succ h) (Nat.lt_of_succ_lt_succ ha)
        (Nat.lt_of_succ_lt_succ hb) (Nat.lt_of_succ_lt_succ hc)
  | [], _, _, i, _, ha, _, _ => absurd ha (Nat.not_lt_zero i)
  | _ :: _, [], _, i, _, _, hb, _ => absurd hb (Nat.not_lt_zero i)
  | _ :: _, _ :: _, [], i, _, _, _, hc => absurd hc (Nat.not_lt_zero i)

theorem compute_air_density_ok (t p rh : List ℝ)
    (ht : ∀ x ∈ t, 0 ≤ x) (hp : ∀ x ∈ p, 0 ≤ x) (hrh : ∀ x ∈ rh, 0 ≤ x) :
    compute_air_density t p (some rh) = Except.ok (List.zipWith3 densityAt t p rh) := by
  show (if (∃ x ∈ t, x < 0) ∨ (∃ x ∈ p, x < 0) ∨ (∃ x ∈ rh, x < 0) then
      Except.error "Temperature, pressure, or humidity data contains negative values."
    else Except.ok (List.zipWith3 densityAt t p rh)) = _
  rw [if_neg]
  push_neg
  exact ⟨ht, hp, hrh⟩

/-- Claim C3: for every index of equal-length non-negative temperature,
pressure and humidity arrays, compute_air_density succeeds and its i-th
output equals the closed-form density of section 4.1 with Rd = 287.05 and
Rw = 461.5, deterministically (the model is a pure function). -/
theorem claim_C3 (t p rh : List ℝ) (hpl : p.length = t.length)
    (hrl : rh.length = t.length)
    (ht : ∀ x ∈ t, 0 ≤ x) (hp : ∀ x ∈ p, 0 ≤ x) (hrh : ∀ x ∈ rh, 0 ≤ x) :
    ∃ out, compute_air_density t p (some rh) = Except.ok out ∧
      out.length = t.length ∧
      ∀ (i : Nat) (ho : i < out.length) (hi : i < t.length)
        (hip : i < p.length) (hih : i < rh.length),
        out.get ⟨i, ho⟩ =
          specDensityFormula (t.get ⟨i, hi⟩) (p.get ⟨i, hip⟩) (rh.get ⟨i, hih⟩) := by
  refine ⟨List.zipWith3 densityAt t p rh, compute_air_density_ok t p rh ht hp hrh, ?_, ?_⟩
  · rw [length_zipWith3, hpl, hrl]
    simp
  · intro i ho hi hip hih
    rw [get_zipWith3 densityAt t p rh i ho hi hip hih, densityAt_eq_spec]

theorem claim_C3_witness :
    ([(101325:ℝ)].length = [(280:ℝ)].length) ∧
    ([(0.5:ℝ)].length = [(280:ℝ)].length) ∧
    (∀ x ∈ [(280:ℝ)], 0 ≤ x) ∧ (∀ x ∈ [(101325:ℝ)], 0 ≤ x) ∧
    (∀ x ∈ [(0.5:ℝ)], 0 ≤ x) ∧
    (∃ out, compute_air_density [(280:ℝ)] [(101325:ℝ)] (some [(0.5:ℝ)]) = Except.ok out ∧
      out.length = [(280:ℝ)].length ∧
      ∀ (i : Nat) (ho : i < out.length) (hi : i < [(280:ℝ)].length)
        (hip : i < [(101325:ℝ)].length) (hih : i < [(0.5:ℝ)].length),
        out.get ⟨i, ho⟩ =
          specDensityFormula ([(280:ℝ)].get ⟨i, hi⟩) ([(101325:ℝ)].get ⟨i, hip⟩)
            ([(0.5:ℝ)].get ⟨i, hih⟩)) :=
  ⟨rfl, rfl, by norm_num, by norm_num, by norm_num,
    claim_C3 [280] [101325] [0.5] rfl rfl (by norm_num) (by norm_num) (by norm_num)⟩

theorem compute_air_density_eq_ite (t p : List ℝ) (h : Option (List ℝ)) :
    compute_air_density t p h =
      if (∃ x ∈ t, x < 0) ∨ (∃ x ∈ p, x < 0) ∨ (∃ x ∈ defaultedHumidity t h, x < 0) then
        Except.error "Temperature, pressure, or humidity data contains negative values."
      else Except.ok (List.zipWith3 densityAt t p (defaultedHumidity t h)) := rfl

/-- Claim C4: compute_air_density raises exactly when some element of the
temperature array, the pressure array or the (possibly defaulted) humidity
array is negative; in particular it raises on temperature [-1] with pressure
[101325] and humidity [0.5], when only the pressure is negative, and when
only the humidity is negative; and the same characterisation holds with the
humidity argument omitted, so the check runs against the defaulted array. -/
theorem claim_C4 :
    (∀ (t p : List ℝ) (h : Option (List ℝ)),
        raisedError (compute_air_density t p h) = true ↔
          ((∃ x ∈ t, x < 0) ∨ (∃ x ∈ p, x < 0) ∨
            (∃ x ∈ defaultedHumidity t h, x < 0))) ∧
    raisedError (compute_air_density [(-1:ℝ)] [(101325:ℝ)] (some [(0.5:ℝ)])) = true ∧
    raisedError (compute_air_density [(280:ℝ)] [(-1:ℝ)] (some [(0.5:ℝ)])) = true ∧
    raisedError (compute_air_density [(280:ℝ)] [(101325:ℝ)] (some [(-0.5:ℝ)])) = true ∧
    (∀ (t p : List ℝ),
        raisedError (compute_air_density t p none) = true ↔
          ((∃ x ∈ t, x < 0) ∨ (∃ x ∈ p, x < 0) ∨
            (∃ x ∈ List.replicate t.length (0.5:ℝ), x < 0))) := by
  have key : ∀ (t p : List ℝ) (h : Option (List ℝ)),
      raisedError (compute_air_density t p h) = true ↔
        ((∃ x ∈ t, x < 0) ∨ (∃ x ∈ p, x < 0) ∨
          (∃ x ∈ defaultedHumidity t h, x < 0)) := by
    intro t p h
    rw [compute_air_density_eq_ite]
    by_cases hc : (∃ x ∈ t, x < 0) ∨ (∃ x ∈ p, x < 0) ∨
        (∃ x ∈ defaultedHumidity t h, x < 0)
    · rw [if_pos hc]
      simpa [raisedError] using hc
    · rw [if_neg hc]
      simpa [raisedError] using hc
  refine ⟨key, ?_, ?_, ?_, fun t p => key t p none⟩
  · rw [(key [(-1:ℝ)] [(101325:ℝ)] (some [(0.5:ℝ)]))]
    exact Or.inl ⟨-1, by simp, by norm_num⟩
  · rw [(key [(280:ℝ)] [(-1:ℝ)] (some [(0.5:ℝ)]))]
    exact Or.inr (Or.inl ⟨-1, by simp, by norm_num⟩)
  · rw [(key [(280:ℝ)] [(101325:ℝ)] (some [(-0.5:ℝ)]))]
    exact Or.inr (Or.inr ⟨-0.5, by simp [defaultedHumidity], by norm_num⟩)

/-- Claim C5: calling compute_air_density with the humidity argument omitted
gives the same result as passing a humidity array of the same length as the
temperature array whose every element is 0.5. -/
theorem claim_C5 (t p rh : List ℝ) (hlen : rh.length = t.length)
    (hval : ∀ x ∈ rh, x = 0.5) :
    compute_air_density t p (some rh) = compute_air_density t p none := by
  have hrep : rh = List.replicate t.length (0.5:ℝ) := by
    rw [← hlen]
    exact List.eq_replicate_length.mpr hval
  rw [hrep]
  rfl

theorem claim_C5_witness :
    ([(0.5:ℝ)].length = [(280:ℝ)].length) ∧ (∀ x ∈ [(0.5:ℝ)], x = 0.5) ∧
    compute_air_density [(280:ℝ)] [(101325:ℝ)] (some [(0.5:ℝ)]) =
      compute_air_density [(280:ℝ)] [(101325:ℝ)] none :=
  ⟨rfl, by simp, claim_C5 [280] [101325] [0.5] rfl (by simp)⟩

/-- Claim C10: on the temperature array [0] the validation of line 13 does
not fire, since it only rejects negative elements, and the returned density
is the unguarded formula containing the division 1 / 0: the function neither
raises nor special-cases a zero temperature. -/
theorem claim_C10 :
    compute_air_density [(0:ℝ)] [(101325:ℝ)] none =
      Except.ok [(1 / (0:ℝ)) * ((101325:ℝ) / R_const -
        0.5 * (0.0000205 * Real.exp (0.0631846 * 0)) * (1 / R_const - 1 / Rw_const))] := by
  rw [compute_air_density_eq_ite, if_neg]
  · rfl
  · push_neg
    refine ⟨?_, ?_, ?_⟩
    · intro x hx
      rw [List.mem_singleton] at hx
      rw [hx]
    · intro x hx
      rw [List.mem_singleton] at hx
      rw [hx]
      norm_num
    · intro x hx
      simp only [defaultedHumidity, Option.getD, List.mem_replicate] at hx
      rw [hx.2]
      norm_num

theorem get_congr {α : Type} (l l2 : List α) (hl : l = l2) (i : Nat)
    (h : i < l.length) (h2 : i < l2.length) : l.get ⟨i, h⟩ = l2.get ⟨i, h2⟩ := by
  subst hl
  rfl

theorem compute_air_density_none_ok (t p : List ℝ)
    (ht : ∀ x ∈ t, 0 ≤ x) (hp : ∀ x ∈ p, 0 ≤ x) :
    compute_air_density t p none =
      Except.ok (List.zipWith3 densityAt t p (List.replicate t.length 0.5)) := by
  rw [compute_air_density_eq_ite, if_neg]
  · rfl
  push_neg
  refine ⟨ht, hp, ?_⟩
  intro x hx
  simp only [defaultedHumidity, Option.getD, List.mem_replicate] at hx
  rw [hx.2]
  norm_num

theorem create_dataframe_eq_ok (dts : List PyDateTime) (u v t p : List ℝ)
    (ht : ∀ x ∈ t, 0 ≤ x) (hp : ∀ x ∈ p, 0 ≤ x) :
    create_dataframe dts u v t p = Except.ok
      { datetime := dts.map strftimeYmdHMS
        surface_pressure := p
        u_50 := u
        v_50 := v
        temp_2m := t
        dens_50m := List.zipWith3 densityAt t p (List.replicate t.length 0.5)
        ws_50m := List.zipWith windSpeed u v } := by
  unfold create_dataframe
  rw [compute_air_density_none_ok t p ht hp]

theorem create_dataframe_ok_inv (dts : List PyDateTime) (u v t p : List ℝ)
    (df : DataFrame) (h : create_dataframe dts u v t p = Except.ok df) :
    df.datetime = dts.map strftimeYmdHMS ∧ df.surface_pressure = p ∧
    df.u_50 = u ∧ df.v_50 = v ∧ df.temp_2m = t ∧
    df.dens_50m = List.zipWith3 densityAt t p (List.replicate t.length 0.5) ∧
    df.ws_50m = List.zipWith windSpeed u v := by
  cases hcd : compute_air_density t p none with
  | error e =>
      exfalso
      have hbad : create_dataframe dts u v t p = Except.error e := by
        unfold create_dataframe
        rw [hcd]
      rw [hbad] at h
      exact Except.noConfusion h
  | ok dens =>
      have hdens : dens = List.zipWith3 densityAt t p (List.replicate t.length 0.5) := by
        by_cases hc : (∃ x ∈ t, x < 0) ∨ (∃ x ∈ p, x < 0) ∨
            (∃ x ∈ defaultedHumidity t none, x < 0)
        · rw [compute_air_density_eq_ite, if_pos hc] at hcd
          exact absurd hcd (by simp)
        · rw [compute_air_density_eq_ite, if_neg hc] at hcd
          injection hcd with h3
          exact h3.symm
      have hok : create_dataframe dts u v t p = Except.ok
          { datetime := dts.map strftimeYmdHMS
            surface_pressure := p
            u_50 := u
            v_50 := v
            temp_2m := t
            dens_50m := dens
            ws_50m := List.zipWith windSpeed u v } := by
        unfold create_dataframe
        rw [hcd]
      rw [hok] at h
      injection h with h2
      rw [← h2, hdens]
      exact ⟨rfl, rfl, rfl, rfl, rfl, rfl, rfl⟩

/-- Claim C6: in the assembled table the derived wind speed column is the
pointwise sqrt(u^2 + v^2) of the two wind component columns, and on the
components 3 and 4 the derived wind speed is exactly 5. -/
theorem claim_C6 (dts : List PyDateTime) (u v t p : List ℝ) (df : DataFrame)
    (h : create_dataframe dts u v t p = Except.ok df) :
    df.ws_50m = List.zipWith windSpeed u v ∧
    (∀ (i : Nat) (hw : i < df.ws_50m.length) (hu : i < u.length) (hv : i < v.length),
      df.ws_50m.get ⟨i, hw⟩ = Real.sqrt ((u.get ⟨i, hu⟩) ^ 2 + (v.get ⟨i, hv⟩) ^ 2)) ∧
    windSpeed 3 4 = 5 := by
  obtain ⟨-, -, -, -, -, -, hws⟩ := create_dataframe_ok_inv dts u v t p df h
  refine ⟨hws, ?_, ?_⟩
  · intro i hw hu hv
    have hw2 : i < (List.zipWith windSpeed u v).length := by
      rw [← hws]
      exact hw
    rw [get_congr df.ws_50m (List.zipWith windSpeed u v) hws i hw hw2]
    simp [List.get_eq_getElem, List.getElem_zipWith, windSpeed]
  · unfold windSpeed
    rw [show (3:ℝ) ^ 2 + (4:ℝ) ^ 2 = 5 ^ 2 by norm_num]
    exact Real.sqrt_sq (by norm_num)

theorem claim_C6_witness :
    ∃ df, create_dataframe [⟨2020, 1, 1, 0, 0, 0, 0⟩] [(3:ℝ)] [(4:ℝ)]
        [(280:ℝ)] [(101325:ℝ)] = Except.ok df ∧
      (df.ws_50m = List.zipWith windSpeed [(3:ℝ)] [(4:ℝ)] ∧
       (∀ (i : Nat) (hw : i < df.ws_50m.length) (hu : i < [(3:ℝ)].length)
          (hv : i < [(4:ℝ)].length),
          df.ws_50m.get ⟨i, hw⟩ =
            Real.sqrt (([(3:ℝ)].get ⟨i, hu⟩) ^ 2 + ([(4:ℝ)].get ⟨i, hv⟩) ^ 2)) ∧
       windSpeed 3 4 = 5) := by
  have hok := create_dataframe_eq_ok [⟨2020, 1, 1, 0, 0, 0, 0⟩] [(3:ℝ)] [(4:ℝ)]
    [(280:ℝ)] [(101325:ℝ)] (by norm_num) (by norm_num)
  exact ⟨_, hok, claim_C6 _ _ _ _ _ _ hok⟩

theorem strftimeYmdHMS_length (d : PyDateTime) : (strftimeYmdHMS d).length = 19 := rfl

/-- Claim C7: from an AccumulatedSeries of length N, create_dataframe
produces a table whose seven columns, in the fixed order datetime,
surface_pressure, u_50, v_50, temp_2m, dens_50m, ws_50m, each carry exactly
N entries, and every datetime cell is the 19-character YYYY-MM-DD HH:MM:SS
rendering of the corresponding input timestamp, a format with no sub-second
component and no timezone annotation. -/
theorem claim_C7 (N : Nat) (dts : List PyDateTime) (u v t p : List ℝ)
    (df : DataFrame) (hd : dts.length = N) (hu : u.length = N) (hv : v.length = N)
    (ht : t.length = N) (hp : p.length = N)
    (h : create_dataframe dts u v t p = Except.ok df) :
    dataframeColumns = specColumnOrder ∧
    df.datetime.length = N ∧ df.surface_pressure.length = N ∧
    df.u_50.length = N ∧ df.v_50.length = N ∧ df.temp_2m.length = N ∧
    df.dens_50m.length = N ∧ df.ws_50m.length = N ∧
    (∀ (i : Nat) (hi : i < df.datetime.length) (hj : i < dts.length),
      df.datetime.get ⟨i, hi⟩ = strftimeYmdHMS (dts.get ⟨i, hj⟩)) ∧
    (∀ d : PyDateTime, (strftimeYmdHMS d).length = 19) := by
  obtain ⟨h1, h2, h3, h4, h5, h6, h7⟩ := create_dataframe_ok_inv dts u v t p df h
  refine ⟨rfl, ?_, ?_, ?_, ?_, ?_, ?_, ?_, ?_, strftimeYmdHMS_length⟩
  · rw [h1, List.length_map, hd]
  · rw [h2, hp]
  · rw [h3, hu]
  · rw [h4, hv]
  · rw [h5, ht]
  · rw [h6, length_zipWith3, List.length_replicate, ht, hp]
    simp
  · rw [h7, List.length_zipWith, hu, hv]
    simp
  · intro i hi hj
    have hi2 : i < (dts.map strftimeYmdHMS).length := by
      rw [← h1]
      exact hi
    rw [get_congr df.datetime (dts.map strftimeYmdHMS) h1 i hi hi2]
    simp [List.get_eq_getElem, List.getElem_map]

theorem claim_C7_witness :
    ([⟨2020, 6, 15, 12, 30, 45, 999⟩] : List PyDateTime).length = 1 ∧
    ∃ df, create_dataframe [⟨2020, 6, 15, 12, 30, 45, 999⟩] [(3:ℝ)] [(4:ℝ)]
        [(280:ℝ)] [(101325:ℝ)] = Except.ok df ∧
      (dataframeColumns = specColumnOrder ∧
       df.datetime.length = 1 ∧ df.surface_pressure.length = 1 ∧
       df.u_50.length = 1 ∧ df.v_50.length = 1 ∧ df.temp_2m.length = 1 ∧
       df.dens_50m.length = 1 ∧ df.ws_50m.length = 1 ∧
       (∀ (i : Nat) (hi : i < df.datetime.length)
          (hj : i < ([⟨2020, 6, 15, 12, 30, 45, 999⟩] : List PyDateTime).length),
          df.datetime.get ⟨i, hi⟩ =
            strftimeYmdHMS (([⟨2020, 6, 15, 12, 30, 45, 999⟩] :
              List PyDateTime).get ⟨i, hj⟩)) ∧
       (∀ d : PyDateTime, (strftimeYmdHMS d).length = 19)) ∧
      df.datetime = ["2020-06-15 12:30:45"] := by
  have hok := create_dataframe_eq_ok [⟨2020, 6, 15, 12, 30, 45, 999⟩] [(3:ℝ)] [(4:ℝ)]
    [(280:ℝ)] [(101325:ℝ)] (by norm_num) (by norm_num)
  refine ⟨rfl, _, hok,
    claim_C7 1 [⟨2020, 6, 15, 12, 30, 45, 999⟩] [(3:ℝ)] [(4:ℝ)] [(280:ℝ)] [(101325:ℝ)]
      _ rfl rfl rfl rfl rfl hok, ?_⟩
  have hdt := (create_dataframe_ok_inv _ _ _ _ _ _ hok).1
  rw [hdt]
  rfl

/-- Claim C8: the assembler neither reorders nor sorts rows: each data column
of the output table is the corresponding accumulated sequence verbatim and
the datetime column renders the accumulated timestamps in accumulation
order, so row i of the output corresponds to sample i of the
AccumulatedSeries. -/
theorem claim_C8 (dts : List PyDateTime) (u v t p : List ℝ) (df : DataFrame)
    (h : create_dataframe dts u v t p = Except.ok df) :
    df.datetime = dts.map strftimeYmdHMS ∧ df.surface_pressure = p ∧
    df.u_50 = u ∧ df.v_50 = v ∧ df.temp_2m = t := by
  obtain ⟨h1, h2, h3, h4, h5, -, -⟩ := create_dataframe_ok_inv dts u v t p df h
  exact ⟨h1, h2, h3, h4, h5⟩

theorem claim_C8_witness :
    ∃ df, create_dataframe [⟨2021, 1, 1, 0, 0, 0, 0⟩, ⟨2020, 1, 1, 0, 0, 0, 0⟩]
        [(1:ℝ), (2:ℝ)] [(0:ℝ), (0:ℝ)] [(280:ℝ), (281:ℝ)] [(101325:ℝ), (101300:ℝ)]
        = Except.ok df ∧
      (df.datetime = ([⟨2021, 1, 1, 0, 0, 0, 0⟩, ⟨2020, 1, 1, 0, 0, 0, 0⟩] :
          List PyDateTime).map strftimeYmdHMS ∧
       df.surface_pressure = [(101325:ℝ), (101300:ℝ)] ∧
       df.u_50 = [(1:ℝ), (2:ℝ)] ∧ df.v_50 = [(0:ℝ), (0:ℝ)] ∧
       df.temp_2m = [(280:ℝ), (281:ℝ)]) ∧
      df.datetime = ["2021-01-01 00:00:00", "2020-01-01 00:00:00"] := by
  have hok := create_dataframe_eq_ok
    [⟨2021, 1, 1, 0, 0, 0, 0⟩, ⟨2020, 1, 1, 0, 0, 0, 0⟩]
    [(1:ℝ), (2:ℝ)] [(0:ℝ), (0:ℝ)] [(280:ℝ), (281:ℝ)] [(101325:ℝ), (101300:ℝ)]
    (by norm_num) (by norm_num)
  refine ⟨_, hok, claim_C8 _ _ _ _ _ _ hok, ?_⟩
  have hdt := (create_dataframe_ok_inv _ _ _ _ _ _ hok).1
  rw [hdt]
  rfl

theorem removeFile_writeFile (fs : List String) (f : String) :
    removeFile (writeFile fs f) f = removeFile fs f := by
  unfold writeFile removeFile
  by_cases hf : f ∈ fs
  · rw [if_pos hf]
  · rw [if_neg hf, List.filter_append]
    simp

theorem not_mem_removeFile (fs : List String) (f : String) :
    f ∉ removeFile fs f := by
  unfold removeFile
  intro hmem
  have := (List.mem_filter.mp hmem).2
  simp at this

theorem mem_writeFile (fs : List String) (f : String) : f ∈ writeFile fs f := by
  unfold writeFile
  by_cases hf : f ∈ fs
  · rw [if_pos hf]
    exact hf
  · rw [if_neg hf]
    exact List.mem_append_right fs (List.mem_singleton.mpr rfl)

/-- Claim C1 counterexample: on a manifest with one source whose decode
fails after the U50M extraction (oracle extractFail 1), the u_50 accumulator
is mutated even though the source failed, and the five accumulators end the
source with diverging lengths, refuting the claimed per-source atomicity of
fetch_and_process_data. -/
theorem claim_C1_counterexample :
    (runSources ["header", "url1"]
      [SourceRun.extractFail 1 ⟨[0], [0], [0], [0], [⟨2020, 1, 1, 0, 0, 0, 0⟩]⟩]).u_50.length
      = 1 ∧
    (runSources ["header", "url1"]
      [SourceRun.extractFail 1 ⟨[0], [0], [0], [0], [⟨2020, 1, 1, 0, 0, 0, 0⟩]⟩]).v_50.length
      = 0 ∧
    ¬ eqLens (runSources ["header", "url1"]
      [SourceRun.extractFail 1 ⟨[0], [0], [0], [0], [⟨2020, 1, 1, 0, 0, 0, 0⟩]⟩]) := by
  refine ⟨rfl, rfl, ?_⟩
  intro hE
  exact absurd hE.1 (by decide)

/-- Claim C1 amended: a source that fails during retrieval or while opening
the dataset mutates none of the five accumulators, and a fully successful
source with index-aligned data preserves the equal-length invariant; but a
source that fails during extraction appends to exactly the accumulators
whose extend statement had already run (a prefix of u_50, v_50, T2M, PS,
DateTimes), never to DateTimes, so after such a source the five lengths can
diverge. -/
theorem claim_C1_amended :
    (∀ st f, processSource st f SourceRun.fetchFail = st) ∧
    (∀ st f, (processSource st f SourceRun.openFail).u_50 = st.u_50 ∧
      (processSource st f SourceRun.openFail).v_50 = st.v_50 ∧
      (processSource st f SourceRun.openFail).T2M = st.T2M ∧
      (processSource st f SourceRun.openFail).PS = st.PS ∧
      (processSource st f SourceRun.openFail).DateTimes = st.DateTimes) ∧
    (∀ st f rv, alignedRV rv → eqLens st →
      eqLens (processSource st f (SourceRun.success rv))) ∧
    (∀ st f k rv,
      (processSource st f (SourceRun.extractFail k rv)).u_50 =
        (if 1 ≤ k.val then st.u_50 ++ rv.u50m else st.u_50) ∧
      (processSource st f (SourceRun.extractFail k rv)).v_50 =
        (if 2 ≤ k.val then st.v_50 ++ rv.v50m else st.v_50) ∧
      (processSource st f (SourceRun.extractFail k rv)).T2M =
        (if 3 ≤ k.val then st.T2M ++ rv.t2m else st.T2M) ∧
      (processSource st f (SourceRun.extractFail k rv)).PS =
        (if 4 ≤ k.val then st.PS ++ rv.ps else st.PS) ∧
      (processSource st f (SourceRun.extractFail k rv)).DateTimes = st.DateTimes) := by
  refine ⟨fun st f => rfl, fun st f => ⟨rfl, rfl, rfl, rfl, rfl⟩, ?_, ?_⟩
  · intro st f rv hrv hst
    obtain ⟨ha1, ha2, ha3, ha4⟩ := hrv
    obtain ⟨hs1, hs2, hs3, hs4⟩ := hst
    refine ⟨?_, ?_, ?_, ?_⟩ <;>
      simp [processSource, extendUpTo, List.length_append, ha1, ha2, ha3, ha4,
        hs1, hs2, hs3, hs4]
  · intro st f k rv
    refine ⟨rfl, rfl, rfl, rfl, ?_⟩
    show (if 5 ≤ k.val then st.DateTimes ++ rv.times else st.DateTimes) = st.DateTimes
    rw [if_neg (not_le.mpr k.isLt)]

theorem claim_C1_amended_witness :
    alignedRV ⟨[0], [0], [0], [0], [⟨2020, 1, 1, 0, 0, 0, 0⟩]⟩ ∧
    eqLens initState ∧
    eqLens (processSource initState "u-site.nc4"
      (SourceRun.success ⟨[0], [0], [0], [0], [⟨2020, 1, 1, 0, 0, 0, 0⟩]⟩)) :=
  ⟨⟨rfl, rfl, rfl, rfl⟩, ⟨rfl, rfl, rfl, rfl⟩,
    claim_C1_amended.2.2.1 initState "u-site.nc4"
      ⟨[0], [0], [0], [0], [⟨2020, 1, 1, 0, 0, 0, 0⟩]⟩
      ⟨rfl, rfl, rfl, rfl⟩ ⟨rfl, rfl, rfl, rfl⟩⟩

/-- Claim C2 counterexample: on a manifest with one source whose payload was
persisted and whose decode then failed (oracle openFail), the temporary
artifact is still on disk when processing of that source ends, refuting the
claim that the artifact is deleted in the decode-failure case. -/
theorem claim_C2_counterexample :
    (runSources ["header", "url1"] [SourceRun.openFail]).tempFiles =
      [file_name "url1"] ∧
    file_name "url1" ∈ (runSources ["header", "url1"] [SourceRun.openFail]).tempFiles := by
  refine ⟨rfl, ?_⟩
  exact mem_writeFile [] (file_name "url1")

/-- Claim C2 amended: the temporary artifact is deleted only in the success
case (where the resulting scratch directory no longer contains it); when the
dataset open or the extraction fails after the payload was persisted, the
artifact remains on disk at the end of processing of that source. -/
theorem claim_C2_amended :
    (∀ st f rv, (processSource st f (SourceRun.success rv)).tempFiles =
        removeFile st.tempFiles f ∧
      f ∉ (processSource st f (SourceRun.success rv)).tempFiles) ∧
    (∀ st f, f ∈ (processSource st f SourceRun.openFail).tempFiles) ∧
    (∀ st f k rv, f ∈ (processSource st f (SourceRun.extractFail k rv)).tempFiles) := by
  refine ⟨?_, ?_, ?_⟩
  · intro st f rv
    constructor
    · show removeFile (writeFile st.tempFiles f) f = removeFile st.tempFiles f
      exact removeFile_writeFile st.tempFiles f
    · show f ∉ removeFile (writeFile st.tempFiles f) f
      exact not_mem_removeFile (writeFile st.tempFiles f) f
  · intro st f
    exact mem_writeFile st.tempFiles f
  · intro st f k rv
    exact mem_writeFile st.tempFiles f

theorem processAll_append (xs ys : List (String × SourceRun)) :
    ∀ st, processAll st (xs ++ ys) = processAll (processAll st xs) ys := by
  induction xs with
  | nil => intro st; rfl
  | cons a rest ih =>
      intro st
      cases a with
      | mk url r => exact ih (processSource st (file_name url) r)

/-- Claim C9: the first manifest line is a discarded header whose content
never influences the run; the remaining lines are processed as source URLs
strictly in manifest order (processing a concatenation processes the first
block fully, then the second); and the temporary-artifact identifier of a
source is the substring at character offsets 108-116 of its URL with the
fixed suffix -site.nc4 appended. The code also strips whitespace around the
slice, a no-op whenever the slice lies inside the whitespace-free URL body,
which the hypothesis states. -/
theorem claim_C9 (header header2 : String) (rest : List String)
    (runs : List SourceRun) (url : String)
    (hws : pyStrip (pySlice url 108 116) = pySlice url 108 116) :
    runSources (header :: rest) runs = runSources (header2 :: rest) runs ∧
    runSources (header :: rest) runs = processAll initState (rest.zip runs) ∧
    (∀ st xs ys, processAll st (xs ++ ys) = processAll (processAll st xs) ys) ∧
    file_name url = specSourceIdentifier url := by
  refine ⟨rfl, rfl, fun st xs ys => processAll_append xs ys st, ?_⟩
  unfold file_name specSourceIdentifier
  rw [hws]

/-- A concrete whitespace-free URL-shaped string, long enough that the slice
at character offsets 108-116 (here the digits 20200101) lies inside it. -/
def witnessURL : String :=
  ⟨List.replicate 108 'a' ++ ("20200101".data ++ List.replicate 10 'b')⟩

theorem claim_C9_witness :
    (pyStrip (pySlice witnessURL 108 116) = pySlice witnessURL 108 116) ∧
    (runSources ("headerA" :: [witnessURL]) [SourceRun.fetchFail] =
        runSources ("headerB" :: [witnessURL]) [SourceRun.fetchFail] ∧
      runSources ("headerA" :: [witnessURL]) [SourceRun.fetchFail] =
        processAll initState ([witnessURL].zip [SourceRun.fetchFail]) ∧
      (∀ st xs ys, processAll st (xs ++ ys) = processAll (processAll st xs) ys) ∧
      file_name witnessURL = specSourceIdentifier witnessURL) ∧
    file_name witnessURL = "20200101-site.nc4" :=
  ⟨rfl, claim_C9 "headerA" "headerB" [witnessURL] [SourceRun.fetchFail] witnessURL rfl, rfl⟩
